import Mathlib

/-!
Shallow embedding of `src/main.py` (Daily Motivation API).

The program stores a single user profile in one JSON file, exposes
create/read/update handlers, and a `motivation` handler that generates a
message via an external API (with a fixed fallback on failure) and emails it
over SMTP.

Modelling choices:
* JSON documents are modelled by `Json` (strings and ordered objects), which
  is enough for every value this program reads or writes.  Python dict
  assignment keeps insertion order and replaces in place (`setPairs`), and
  `in` / `.get` are key lookup (`getPairs`).
* The backing file is `Option Obj`: `none` is a missing file; `read_data`
  creates it with `{}` when absent.  Each handler maps the file state to a
  response together with the resulting file state.
* Nondeterminism (random tone, current date, external API behaviour, SMTP
  outcome) is passed in explicitly as environment values.
* Python exceptions raised by the SMTP client are uncaught in the source and
  surface as `Resp.unhandled`; `HTTPException` is `Resp.httpError`.
-/

/-- A JSON value as this program manipulates it: strings and objects with
insertion-ordered fields. -/
inductive Json where
  | str : String → Json
  | obj : List (String × Json) → Json

/-- The fields of a JSON object (a Python dict), in insertion order. -/
abbrev Obj := List (String × Json)

/-- Key lookup in a dict: `d[k]` / `k in d` / `d.get(k)`. -/
def getPairs : Obj → String → Option Json
  | [], _ => none
  | (k', v) :: rest, k => if k' = k then some v else getPairs rest k

/-- Dict assignment `d[k] = v`: replaces the value in place if the key is
present (keeping its position), otherwise appends the new key. -/
def setPairs : Obj → String → Json → Obj
  | [], k, v => [(k, v)]
  | (k', v') :: rest, k, v =>
    if k' = k then (k', v) :: rest else (k', v') :: setPairs rest k v

/-- `j.get(k)` on a JSON value; `none` when the key is absent.  On a
non-object Python would raise `AttributeError`; no handler reaches that case
on states satisfying the storage invariant. -/
def Json.get : Json → String → Option Json
  | .obj fs, k => getPairs fs k
  | .str _, _ => none

/-- `j[k] = v` on a JSON value.  On a non-object Python would raise
`TypeError`; no handler reaches that case on states satisfying the storage
invariant, so it is modelled as the identity. -/
def Json.setKey : Json → String → Json → Json
  | .obj fs, k, v => .obj (setPairs fs k v)
  | .str s, _, _ => .str s

/-- Python truthiness of a JSON value: a string is truthy iff non-empty, a
dict is truthy iff non-empty. -/
def Json.truthy : Json → Bool
  | .str s => !s.isEmpty
  | .obj fs => !fs.isEmpty

/-- Python truthiness of an `Optional[str]`: `None` and `""` are falsy. -/
def strTruthy : Option String → Bool
  | none => false
  | some s => !s.isEmpty

/-- Pydantic model `About`: four required free-text fields. -/
structure About where
  background : String
  dreams : String
  challenges : String
  values : String
deriving DecidableEq, Repr

/-- Pydantic model `UserData`: the full profile accepted by `create_user`. -/
structure UserData where
  name : String
  role : String
  about : About
deriving DecidableEq, Repr

/-- Pydantic model `UpdateData`: the partial update accepted by
`update_user`, both fields optional (default `None`). -/
structure UpdateData where
  role : Option String
  about : Option About
deriving DecidableEq, Repr

/-- `about.dict()`: the JSON object a pydantic `About` serialises to,
fields in declaration order. -/
def encodeAbout (a : About) : Json :=
  .obj [("background", .str a.background), ("dreams", .str a.dreams),
        ("challenges", .str a.challenges), ("values", .str a.values)]

/-- `user.dict()`: the JSON object a pydantic `UserData` serialises to. -/
def encodeUserData (u : UserData) : Json :=
  .obj [("name", .str u.name), ("role", .str u.role),
        ("about", encodeAbout u.about)]

/-- `read_data()`: returns the current document, creating the file with `{}`
first when it is missing.  Result: the document read, and the file state
afterwards. -/
def read_data (fs : Option Obj) : Obj × Option Obj :=
  (fs.getD [], some (fs.getD []))

/-- `write_data(data)`: overwrites the backing file with the document. -/
def write_data (d : Obj) (_fs : Option Obj) : Option Obj :=
  some d

/-- The document a file state denotes (`{}` when the file is missing). -/
def docOf (fs : Option Obj) : Obj :=
  fs.getD []

/-- The fixed tone list `tones` the generator samples from. -/
def tones : List String :=
  ["inspirational", "energetic", "calm", "reflective", "bold"]

/-- The hardcoded fallback sentence returned when generation fails. -/
def fallbackMessage : String :=
  "You’ve already proved that effort beats everything. Keep pushing forward — your story is just getting started."

/-- `genai.types.GenerationConfig` as passed to the API call. -/
structure GenerationConfig where
  temperature : ℚ
  max_output_tokens : ℕ
deriving DecidableEq, Repr

/-- The concrete config of the one call: temperature 0.95, 250 tokens. -/
def genCfg : GenerationConfig :=
  ⟨95 / 100, 250⟩

/-- Outcome of `model.generate_content`: an exception, a falsy response
object, or a response whose `.text` is `None` or a string. -/
inductive ApiResult where
  | exn : String → ApiResult
  | respFalsy : ApiResult
  | resp : Option String → ApiResult
deriving DecidableEq, Repr

/-- The environment `generate_motivation` draws on: the index of the
randomly chosen tone, today's formatted date, and the external API's
behaviour as a function of prompt and config. -/
structure GenEnv where
  toneIdx : Fin tones.length
  today : String
  api : String → GenerationConfig → ApiResult

/-- `str()` of a JSON value as a Python f-string renders it (quote escaping
inside dict reprs is elided; every value this program interpolates is a
plain string). -/
def Json.pyRepr : Json → String
  | .str s => "\x27" ++ s ++ "\x27"
  | .obj fs => "\x7b" ++ pyReprFields fs ++ "\x7d"
where pyReprFields : List (String × Json) → String
  | [] => ""
  | [(k, v)] => "\x27" ++ k ++ "\x27: " ++ v.pyRepr
  | (k, v) :: rest => "\x27" ++ k ++ "\x27: " ++ v.pyRepr ++ ", " ++ pyReprFields rest

/-- How `f"...{about.get(k)}..."` renders the looked-up value: `None` when
the key is absent, the string itself, or the dict repr. -/
def pyFormat : Option Json → String
  | none => "None"
  | some (.str s) => s
  | some (.obj fs) => Json.pyRepr (.obj fs)

/-- The prompt f-string of `generate_motivation`, verbatim (the addressee is
hardcoded; only the tone, date and the four `about` fields vary). -/
def buildPrompt (tone today : String) (about : Json) : String :=
  "\n    Today is " ++ today ++ ".\n    Write a " ++ tone ++
  " and heartfelt good morning motivational paragraph for Shuaib, \n" ++
  "    a Final Year B.Tech student at CUSAT. \n" ++
  "    Background: " ++ pyFormat (about.get "background") ++ "\n" ++
  "    Dreams: " ++ pyFormat (about.get "dreams") ++ "\n" ++
  "    Challenges: " ++ pyFormat (about.get "challenges") ++ "\n" ++
  "    Values: " ++ pyFormat (about.get "values") ++ "\n" ++
  "    \n" ++
  "    Write as if you\x27re someone who has seen his struggles and growth — \n" ++
  "    make it real, emotional, and personal. Avoid sounding robotic or generic.\n" ++
  "    Output only a single short paragraph (no bullet points, no greetings).\n" ++
  "    "

/-- Python `text.strip()`: drop leading and trailing whitespace characters
(ASCII whitespace; the exotic unicode blanks Python also strips do not occur
in this program's data). -/
def pyStrip (s : String) : String :=
  ⟨(((s.data.dropWhile Char.isWhitespace).reverse.dropWhile
      Char.isWhitespace).reverse)⟩

/-- `generate_motivation(about)`: builds the prompt, calls the API, and on
any exception, falsy response, or missing/empty text returns the fixed
fallback; otherwise the stripped text.  It never propagates a failure. -/
def generate_motivation (env : GenEnv) (about : Json) : String :=
  let tone := tones.get env.toneIdx
  let prompt := buildPrompt tone env.today about
  match env.api prompt genCfg with
  | .exn _ => fallbackMessage
  | .respFalsy => fallbackMessage
  | .resp none => fallbackMessage
  | .resp (some t) => if t.isEmpty then fallbackMessage else pyStrip t

/-- A failure raised inside `send_email`'s SMTP session, by stage. -/
inductive SmtpFailure where
  | connect : String → SmtpFailure
  | starttls : String → SmtpFailure
  | login : String → SmtpFailure
  | send : String → SmtpFailure
deriving DecidableEq, Repr

/-- The notifier's environment: the configured sender address and the
outcome of each successive SMTP attempt (`outcome n` is attempt `n`;
`none` means success). -/
structure SmtpEnv where
  email : String
  outcome : ℕ → Option SmtpFailure

/-- `body.replace('\n', '<br>')` wrapped in the HTML template of
`send_email`. -/
def htmlTemplate (body : String) : String :=
  "\n    <html>\n        <body style=\"font-family: Arial, sans-serif; line-height:1.6; color:#333;\">\n            <p>" ++
  body.replace "\n" "<br>" ++
  "</p>\n            <p style=\"margin-top:20px; font-weight:bold;\">- Your Daily Motivation App</p>\n        </body>\n    </html>\n    "

/-- The multipart message `send_email` builds. -/
structure EmailMsg where
  from_addr : String
  to_addr : String
  subject : String
  htmlBody : String
deriving DecidableEq, Repr

/-- `send_email(subject, body, to_email)`: builds the message and runs one
SMTP session (connect, STARTTLS, login, send).  Any failure is uncaught and
propagates (`Except.error`); there is no retry, so only attempt 0 of the
environment is consumed. -/
def send_email (smtp : SmtpEnv) (subject body to_email : String) :
    Except SmtpFailure EmailMsg :=
  let msg : EmailMsg := ⟨smtp.email, to_email, subject, htmlTemplate body⟩
  match smtp.outcome 0 with
  | some f => .error f
  | none => .ok msg

/-- What a handler returns to the HTTP layer: a payload, a raised
`HTTPException(status, detail)`, or an uncaught exception propagating out of
the handler (only SMTP failures can do so here). -/
inductive Resp (α : Type) where
  | ok : α → Resp α
  | httpError : ℕ → String → Resp α
  | unhandled : SmtpFailure → Resp α

/-- The `{message, data}` body of `create_user` / `update_user`. -/
structure MsgResp where
  message : String
  data : Json

/-- The `{motivation, email_sent_to}` body of `motivation`. -/
structure MotivationResp where
  motivation : String
  email_sent_to : String
deriving DecidableEq, Repr

/-- `POST /create_user`: unconditionally writes `{"user": user.dict()}`. -/
def create_user (user : UserData) (fs : Option Obj) : MsgResp × Option Obj :=
  let data : Obj := [("user", encodeUserData user)]
  (⟨"User data saved successfully", encodeUserData user⟩, write_data data fs)

/-- `GET /get_user`: 404 when the document has no `"user"` key, otherwise
the stored profile under `data`. -/
def get_user (fs : Option Obj) : Resp Json × Option Obj :=
  let r := read_data fs
  match getPairs r.1 "user" with
  | none => (.httpError 404 "User not found", r.2)
  | some u => (.ok u, r.2)

/-- `PUT /update_user`: 404 when no `"user"` key; otherwise overwrites
`role` when the partial's `role` is truthy (non-`None`, non-empty) and the
whole `about` sub-record when the partial's `about` is present, then writes
the document back. -/
def update_user (update : UpdateData) (fs : Option Obj) :
    Resp MsgResp × Option Obj :=
  let r := read_data fs
  match getPairs r.1 "user" with
  | none => (.httpError 404 "User not found", r.2)
  | some user =>
    let user1 := if strTruthy update.role
      then user.setKey "role" (.str (update.role.getD "")) else user
    let user2 := match update.about with
      | some a => user1.setKey "about" (encodeAbout a)
      | none => user1
    let data2 := setPairs r.1 "user" user2
    (.ok ⟨"User data updated successfully", user2⟩, write_data data2 r.2)

mutual

/-- Python `s.replace("**", "")` on the character list: scan left to right,
drop each non-overlapping occurrence of `**`, keep every other character. -/
def stripDoubleStar : List Char → List Char
  | [] => []
  | c :: rest => stripDoubleStarAux c rest

/-- One step of the scan of `stripDoubleStar`, with `c` the character under
the cursor and the list what follows it. -/
def stripDoubleStarAux : Char → List Char → List Char
  | c, [] => [c]
  | c1, c2 :: rest =>
    if c1 = '*' ∧ c2 = '*' then stripDoubleStar rest
    else c1 :: stripDoubleStarAux c2 rest

end

/-- `message.replace("**", "")` as the `motivation` handler applies it. -/
def pyStripDoubleStar (s : String) : String :=
  ⟨stripDoubleStar s.data⟩

/-- Whether `c` followed by the list contains two consecutive `*`. -/
def hasDoubleStarAux : Char → List Char → Bool
  | _, [] => false
  | c1, c2 :: rest => (c1 = '*' && c2 = '*') || hasDoubleStarAux c2 rest

/-- Whether two consecutive `*` occur anywhere in the character list. -/
def hasDoubleStar : List Char → Bool
  | [] => false
  | c :: rest => hasDoubleStarAux c rest

/-- `GET /motivation`: 404 when no `"user"` key; 400 when
`user.get("about", {})` is falsy; otherwise generates the message, strips
the literal `**` markers, sends the email (an SMTP failure propagates
uncaught) and returns `{motivation, email_sent_to}`. -/
def motivation (env : GenEnv) (smtp : SmtpEnv) (fs : Option Obj) :
    Resp MotivationResp × Option Obj :=
  let r := read_data fs
  match getPairs r.1 "user" with
  | none => (.httpError 404 "User not found", r.2)
  | some user =>
    let about := (user.get "about").getD (.obj [])
    if about.truthy = false then
      (.httpError 400 "No about section found", r.2)
    else
      let message := pyStripDoubleStar (generate_motivation env about)
      match send_email smtp "Your Daily Motivation" message
          "shuaibkaloor123@gmail.com" with
      | .error f => (.unhandled f, r.2)
      | .ok _ => (.ok ⟨message, "shuaibkaloor123@gmail.com"⟩, r.2)

/-- The profile `update_user` leaves behind when applied to a stored
profile `p`: `role` overwritten only when the partial's `role` is truthy,
`about` replaced wholesale when supplied. -/
def updUser (u : UpdateData) (p : UserData) : UserData :=
  ⟨p.name, if strTruthy u.role then u.role.getD "" else p.role,
   u.about.getD p.about⟩

/-- The condition under which `generate_motivation` falls back: the API call
raised, or the response object is falsy, or its `.text` is `None` or empty. -/
def apiFails : ApiResult → Bool
  | .exn _ => true
  | .respFalsy => true
  | .resp none => true
  | .resp (some t) => t.isEmpty

/-- The storage invariant of the spec: the stored document is either `{}` or
exactly `{"user": p}` for a well-formed profile `p`. -/
def StoreInv (fs : Option Obj) : Prop :=
  docOf fs = [] ∨ ∃ p : UserData, docOf fs = [("user", encodeUserData p)]

/-- File states reachable from the initial state (no file yet) through the
exposed operations. -/
inductive Reachable : Option Obj → Prop where
  | init : Reachable none
  | read {fs} : Reachable fs → Reachable (read_data fs).2
  | create (u : UserData) {fs} : Reachable fs → Reachable (create_user u fs).2
  | get {fs} : Reachable fs → Reachable (get_user fs).2
  | update (u : UpdateData) {fs} : Reachable fs → Reachable (update_user u fs).2
  | motiv (env : GenEnv) (smtp : SmtpEnv) {fs} :
      Reachable fs → Reachable (motivation env smtp fs).2

/-- A concrete `about` record, used to instantiate theorems. -/
def sampleAbout : About :=
  ⟨"b", "d", "c", "v"⟩

/-- A concrete profile, used to instantiate theorems. -/
def sampleUser : UserData :=
  ⟨"A", "Student", sampleAbout⟩

/-- A concrete generation environment whose API call raises. -/
def sampleEnvExn : GenEnv :=
  ⟨⟨0, by decide⟩, "October 12, 2025", fun _ _ => .exn "boom"⟩

/-- A concrete generation environment whose API call succeeds with text
containing `**` markers. -/
def sampleEnvOk : GenEnv :=
  ⟨⟨2, by decide⟩, "October 12, 2025", fun _ _ => .resp (some "Go **get** it")⟩

/-- A concrete SMTP environment where every attempt succeeds. -/
def sampleSmtpOk : SmtpEnv :=
  ⟨"sender@example.com", fun _ => none⟩

/-- A concrete SMTP environment where every attempt fails at login. -/
def sampleSmtpFail : SmtpEnv :=
  ⟨"sender@example.com", fun _ => some (.login "auth failed")⟩

/-! ### Basic lemmas about the embedded operations -/

lemma getPairs_user (j : Json) : getPairs [("user", j)] "user" = some j := by
  simp [getPairs]

lemma setPairs_user (j j' : Json) :
    setPairs [("user", j)] "user" j' = [("user", j')] := by
  simp [setPairs]

lemma get_encodeUserData_about (p : UserData) :
    (encodeUserData p).get "about" = some (encodeAbout p.about) := by
  simp [encodeUserData, Json.get, getPairs]

lemma encodeAbout_truthy (a : About) : (encodeAbout a).truthy = true := rfl

lemma setKey_role (p : UserData) (r : String) :
    (encodeUserData p).setKey "role" (.str r) = encodeUserData ⟨p.name, r, p.about⟩ := by
  simp [encodeUserData, Json.setKey, setPairs]

lemma setKey_about (p : UserData) (a : About) :
    (encodeUserData p).setKey "about" (encodeAbout a) = encodeUserData ⟨p.name, p.role, a⟩ := by
  simp [encodeUserData, Json.setKey, setPairs]

lemma update_user_profile (u : UpdateData) (p : UserData) :
    update_user u (some [("user", encodeUserData p)]) =
      (.ok ⟨"User data updated successfully", encodeUserData (updUser u p)⟩,
       some [("user", encodeUserData (updUser u p))]) := by
  unfold update_user read_data
  simp only [Option.getD_some, getPairs_user]
  cases hu : u.about <;> by_cases hr : strTruthy u.role <;>
    simp [hr, hu, setKey_role, setKey_about, setPairs_user, write_data, updUser]

lemma motivation_profile (env : GenEnv) (smtp : SmtpEnv) (p : UserData) :
    motivation env smtp (some [("user", encodeUserData p)]) =
      ((match smtp.outcome 0 with
        | some f => Resp.unhandled f
        | none => Resp.ok ⟨pyStripDoubleStar (generate_motivation env (encodeAbout p.about)),
            "shuaibkaloor123@gmail.com"⟩),
       some [("user", encodeUserData p)]) := by
  unfold motivation read_data send_email
  simp only [Option.getD_some, getPairs_user, get_encodeUserData_about]
  cases ho : smtp.outcome 0 <;>
    simp [ho, encodeAbout_truthy]

lemma stripDoubleStarAux_cons_ne (c : Char) (l : List Char) (h : ¬ c = '*') :
    ∃ t, stripDoubleStarAux c l = c :: t := by
  cases l with
  | nil => exact ⟨[], rfl⟩
  | cons c2 rest =>
    refine ⟨stripDoubleStarAux c2 rest, ?_⟩
    show (if c = '*' ∧ c2 = '*' then stripDoubleStar rest
      else c :: stripDoubleStarAux c2 rest) = _
    rw [if_neg]
    rintro ⟨h1, -⟩
    exact h h1

lemma noDoubleStarFuel (n : ℕ) :
    ∀ l : List Char, l.length ≤ n →
      hasDoubleStar (stripDoubleStar l) = false ∧
      ∀ c, hasDoubleStar (stripDoubleStarAux c l) = false := by
  induction n with
  | zero =>
    intro l hl
    have hnil : l = [] := List.length_eq_zero.mp (Nat.le_zero.mp hl)
    subst hnil
    exact ⟨rfl, fun c => rfl⟩
  | succ n ih =>
    intro l hl
    have hQ : ∀ c, hasDoubleStar (stripDoubleStarAux c l) = false := by
      intro c
      cases l with
      | nil => rfl
      | cons c2 rest =>
        have hrest : rest.length ≤ n := by
          simp only [List.length_cons] at hl
          omega
        have hq2 : hasDoubleStar (stripDoubleStarAux c2 rest) = false :=
          (ih rest hrest).2 c2
        show hasDoubleStar (if c = '*' ∧ c2 = '*' then stripDoubleStar rest
          else c :: stripDoubleStarAux c2 rest) = false
        by_cases hb : c = '*' ∧ c2 = '*'
        · rw [if_pos hb]
          exact (ih rest hrest).1
        · rw [if_neg hb]
          by_cases hc : c = '*'
          · have hc2 : ¬ c2 = '*' := fun h2 => hb ⟨hc, h2⟩
            obtain ⟨t, ht⟩ := stripDoubleStarAux_cons_ne c2 rest hc2
            rw [ht]
            rw [ht] at hq2
            show hasDoubleStarAux c (c2 :: t) = false
            simp only [hasDoubleStarAux, Bool.or_eq_false_iff]
            exact ⟨by simp [hc2], hq2⟩
          · cases hsa : stripDoubleStarAux c2 rest with
            | nil => simp [hasDoubleStar, hasDoubleStarAux]
            | cons d ds =>
              rw [hsa] at hq2
              show hasDoubleStarAux c (d :: ds) = false
              simp only [hasDoubleStarAux, Bool.or_eq_false_iff]
              exact ⟨by simp [hc], hq2⟩
    refine ⟨?_, hQ⟩
    cases l with
    | nil => rfl
    | cons c rest =>
      have hrest : rest.length ≤ n := by
        simp only [List.length_cons] at hl
        omega
      exact (ih rest hrest).2 c

lemma hasDoubleStar_stripDoubleStar (l : List Char) :
    hasDoubleStar (stripDoubleStar l) = false :=
  (noDoubleStarFuel l.length l le_rfl).1

lemma inv_read {fs} (h : StoreInv fs) : StoreInv (read_data fs).2 := by
  cases fs with
  | none => exact Or.inl rfl
  | some l => exact h

lemma inv_create (u : UserData) (fs : Option Obj) :
    StoreInv (create_user u fs).2 :=
  Or.inr ⟨u, rfl⟩

lemma get_user_state (fs : Option Obj) : (get_user fs).2 = some (docOf fs) := by
  unfold get_user read_data
  cases h : getPairs (fs.getD []) "user" <;> simp [h, docOf]

lemma inv_get {fs} (h : StoreInv fs) : StoreInv (get_user fs).2 := by
  rw [get_user_state]
  cases fs with
  | none => exact Or.inl rfl
  | some l => exact h

lemma inv_update (u : UpdateData) {fs} (h : StoreInv fs) :
    StoreInv (update_user u fs).2 := by
  rcases h with h | ⟨p, hp⟩
  · left
    unfold update_user read_data
    have hg : getPairs (fs.getD []) "user" = none := by
      rw [show fs.getD [] = [] from h]; rfl
    simp only [hg, write_data]
    exact h
  · have hfs : update_user u fs = update_user u (some [("user", encodeUserData p)]) := by
      unfold update_user read_data
      rw [show fs.getD [] = [("user", encodeUserData p)] from hp]
      rfl
    rw [hfs, update_user_profile]
    exact Or.inr ⟨updUser u p, rfl⟩

lemma motivation_state (env : GenEnv) (smtp : SmtpEnv) (fs : Option Obj) :
    (motivation env smtp fs).2 = some (docOf fs) := by
  unfold motivation read_data send_email
  cases h : getPairs (fs.getD []) "user" with
  | none => simp [h, docOf]
  | some user =>
    cases ht : ((user.get "about").getD (.obj [])).truthy <;>
      cases ho : smtp.outcome 0 <;> simp [h, ht, ho, docOf]

lemma inv_motivation (env : GenEnv) (smtp : SmtpEnv) {fs} (h : StoreInv fs) :
    StoreInv (motivation env smtp fs).2 := by
  rw [motivation_state]
  cases fs with
  | none => exact Or.inl rfl
  | some l => exact h

lemma encodeUserData_inj (q p : UserData) (h : encodeUserData q = encodeUserData p) :
    q = p := by
  obtain ⟨n1, r1, a1, b1, c1, d1⟩ := q
  obtain ⟨n2, r2, a2, b2, c2, d2⟩ := p
  simp [encodeUserData, encodeAbout] at h
  obtain ⟨h1, h2, h3, h4, h5, h6⟩ := h
  simp_all

/-! ### The claims -/

/-- C1: for every prior file state, `create_user p` replaces the stored
document with exactly `{"user": p}`, and a subsequent `get_user` returns
exactly the serialised `p`; the serialisation determines the profile, so the
round trip is the identity. -/
theorem create_user_roundtrip :
    (∀ (fs : Option Obj) (p : UserData),
      (create_user p fs).2 = some [("user", encodeUserData p)] ∧
      (get_user (create_user p fs).2).1 = .ok (encodeUserData p)) ∧
    (∀ q p : UserData, encodeUserData q = encodeUserData p → q = p) := by
  refine ⟨fun fs p => ⟨rfl, ?_⟩, encodeUserData_inj⟩
  simp [get_user, read_data, create_user, write_data, getPairs_user]

/-- Witness for C1 at a concrete profile and the empty initial state. -/
theorem create_user_roundtrip_witness :
    ((create_user sampleUser none).2 = some [("user", encodeUserData sampleUser)] ∧
      (get_user (create_user sampleUser none).2).1 = .ok (encodeUserData sampleUser)) ∧
    sampleUser = sampleUser :=
  ⟨create_user_roundtrip.1 none sampleUser,
   create_user_roundtrip.2 sampleUser sampleUser rfl⟩

/-- C3: whenever the stored document has no `"user"` key (in particular in
the initial state), `get_user`, `update_user` and `motivation` all fail with
`HTTPException(404, "User not found")` and leave the stored document
unchanged. -/
theorem no_user_notfound :
    ∀ fs : Option Obj, getPairs (docOf fs) "user" = none →
      ((get_user fs).1 = Resp.httpError 404 "User not found" ∧
        docOf (get_user fs).2 = docOf fs) ∧
      (∀ u : UpdateData,
        (update_user u fs).1 = Resp.httpError 404 "User not found" ∧
        docOf (update_user u fs).2 = docOf fs) ∧
      (∀ (env : GenEnv) (smtp : SmtpEnv),
        (motivation env smtp fs).1 = Resp.httpError 404 "User not found" ∧
        docOf (motivation env smtp fs).2 = docOf fs) := by
  intro fs h
  have h' : getPairs (fs.getD []) "user" = none := h
  refine ⟨⟨?_, ?_⟩, fun u => ⟨?_, ?_⟩, fun env smtp => ⟨?_, ?_⟩⟩
  · unfold get_user read_data
    simp [h']
  · rw [get_user_state]
    rfl
  · unfold update_user read_data
    simp [h']
  · unfold update_user read_data
    simp [h', docOf]
  · unfold motivation read_data
    simp [h']
  · rw [motivation_state]
    rfl

/-- Witness for C3 at the initial state (no file yet). -/
theorem no_user_notfound_witness :
    ((get_user none).1 = Resp.httpError 404 "User not found" ∧
      docOf (get_user none).2 = docOf none) ∧
    (∀ u : UpdateData,
      (update_user u none).1 = Resp.httpError 404 "User not found" ∧
      docOf (update_user u none).2 = docOf none) ∧
    (∀ (env : GenEnv) (smtp : SmtpEnv),
      (motivation env smtp none).1 = Resp.httpError 404 "User not found" ∧
      docOf (motivation env smtp none).2 = docOf none) :=
  no_user_notfound none rfl

/-- C4: every file state reachable from the initial one through the exposed
operations satisfies the storage invariant (document empty, or exactly the
one key `"user"` holding a well-formed profile), and each operation
(`read_data`, `create_user`, `get_user`, `update_user`, `motivation`)
preserves the invariant. -/
theorem storage_invariant_holds :
    (∀ fs, Reachable fs → StoreInv fs) ∧
    (∀ fs, StoreInv fs → StoreInv (read_data fs).2) ∧
    (∀ fs (u : UserData), StoreInv (create_user u fs).2) ∧
    (∀ fs, StoreInv fs → StoreInv (get_user fs).2) ∧
    (∀ fs (u : UpdateData), StoreInv fs → StoreInv (update_user u fs).2) ∧
    (∀ fs (env : GenEnv) (smtp : SmtpEnv),
      StoreInv fs → StoreInv (motivation env smtp fs).2) := by
  refine ⟨?_, fun fs h => inv_read h, fun fs u => inv_create u fs,
    fun fs h => inv_get h, fun fs u h => inv_update u h,
    fun fs env smtp h => inv_motivation env smtp h⟩
  intro fs hr
  induction hr with
  | init => exact Or.inl rfl
  | read _ ih => exact inv_read ih
  | create u _ ih => exact inv_create u _
  | get _ ih => exact inv_get ih
  | update u _ ih => exact inv_update u ih
  | motiv env smtp _ ih => exact inv_motivation env smtp ih

/-- Witness for C4: the state after a create followed by a role update is
reachable and satisfies the invariant. -/
theorem storage_invariant_holds_witness :
    StoreInv (update_user ⟨some "X", none⟩ (create_user sampleUser none).2).2 :=
  storage_invariant_holds.1 _
    (Reachable.update ⟨some "X", none⟩ (Reachable.create sampleUser Reachable.init))

lemma generate_motivation_fallback_eq (env : GenEnv) (about : Json)
    (h : apiFails (env.api (buildPrompt (tones.get env.toneIdx) env.today about)
      genCfg) = true) :
    generate_motivation env about = fallbackMessage := by
  simp only [generate_motivation]
  cases hres : env.api (buildPrompt (tones.get env.toneIdx) env.today about) genCfg with
  | exn e => rfl
  | respFalsy => rfl
  | resp t =>
    cases t with
    | none => rfl
    | some s =>
      rw [hres] at h
      simp only [apiFails] at h
      simp [h]

/-- C2: `generate_motivation` never propagates a failure: whenever the API
call raises, or the response is falsy or its text missing/empty, it returns
exactly the fixed fallback sentence, and the enclosing `motivation` request
(with the email send succeeding) still returns the 200 body carrying that
sentence. -/
theorem generate_motivation_total_fallback :
    ∀ (env : GenEnv) (smtp : SmtpEnv) (p : UserData),
      apiFails (env.api (buildPrompt (tones.get env.toneIdx) env.today
        (encodeAbout p.about)) genCfg) = true →
      smtp.outcome 0 = none →
      generate_motivation env (encodeAbout p.about) = fallbackMessage ∧
      (motivation env smtp (some [("user", encodeUserData p)])).1
        = .ok ⟨fallbackMessage, "shuaibkaloor123@gmail.com"⟩ := by
  intro env smtp p hapi hsmtp
  have hg := generate_motivation_fallback_eq env (encodeAbout p.about) hapi
  refine ⟨hg, ?_⟩
  rw [motivation_profile]
  simp only [hsmtp, hg]
  rfl

/-- Witness for C2: a concrete raising API and succeeding SMTP session. -/
theorem generate_motivation_total_fallback_witness :
    apiFails (sampleEnvExn.api (buildPrompt (tones.get sampleEnvExn.toneIdx)
      sampleEnvExn.today (encodeAbout sampleUser.about)) genCfg) = true ∧
    sampleSmtpOk.outcome 0 = none ∧
    (generate_motivation sampleEnvExn (encodeAbout sampleUser.about) = fallbackMessage ∧
      (motivation sampleEnvExn sampleSmtpOk (some [("user", encodeUserData sampleUser)])).1
        = .ok ⟨fallbackMessage, "shuaibkaloor123@gmail.com"⟩) :=
  ⟨rfl, rfl,
   generate_motivation_total_fallback sampleEnvExn sampleSmtpOk sampleUser rfl rfl⟩

/-- C5: a role-only update leaves `name` and the whole `about` sub-record
unchanged, and an about-only update leaves `name` and `role` unchanged while
replacing the `about` sub-record as a whole. -/
theorem update_user_frame :
    ∀ (p : UserData) (r : Option String) (a : About),
      (update_user ⟨r, none⟩ (some [("user", encodeUserData p)])).2
        = some [("user", encodeUserData
            ⟨p.name, if strTruthy r then r.getD "" else p.role, p.about⟩)] ∧
      (update_user ⟨none, some a⟩ (some [("user", encodeUserData p)])).2
        = some [("user", encodeUserData ⟨p.name, p.role, a⟩)] := by
  intro p r a
  constructor
  · rw [update_user_profile]
    rfl
  · rw [update_user_profile]
    rfl

lemma strTruthy_some_iff (s : String) : strTruthy (some s) = true ↔ s ≠ "" := by
  simp only [strTruthy, Bool.not_eq_true']
  rw [← Bool.not_eq_true, String.isEmpty_iff]

/-- C6: `update_user` overwrites the stored `role` iff the partial supplies
a non-empty `role`: an absent or empty `role` leaves it unchanged, any
non-empty string replaces it (and `about` is replaced exactly when
supplied). -/
theorem update_user_role_overwrite :
    ∀ (p : UserData) (u : UpdateData),
      (update_user u (some [("user", encodeUserData p)])).2
        = some [("user", encodeUserData
            ⟨p.name, if strTruthy u.role then u.role.getD "" else p.role,
             u.about.getD p.about⟩)] ∧
      (strTruthy u.role = true ↔ ∃ s, u.role = some s ∧ s ≠ "") := by
  intro p u
  constructor
  · rw [update_user_profile]
    rfl
  · cases hu : u.role with
    | none => simp [strTruthy]
    | some s => simp [strTruthy_some_iff]

/-- C7: a stored profile whose `about` record is present with all four
fields empty passes validation — `motivation` proceeds to generate and send
(individual fields are not validated) — and the 400 BadInput failure occurs
exactly when the `about` value read from the stored user (defaulting to
`{}`) is falsy, i.e. empty or absent. -/
theorem about_validation :
    (∀ (n r : String) (env : GenEnv) (smtp : SmtpEnv), smtp.outcome 0 = none →
      (motivation env smtp
          (some [("user", encodeUserData ⟨n, r, ⟨"", "", "", ""⟩⟩)])).1
        = .ok ⟨pyStripDoubleStar (generate_motivation env
            (encodeAbout ⟨"", "", "", ""⟩)), "shuaibkaloor123@gmail.com"⟩) ∧
    (∀ (user : Obj) (env : GenEnv) (smtp : SmtpEnv),
      (motivation env smtp (some [("user", Json.obj user)])).1
          = .httpError 400 "No about section found"
        ↔ (((Json.obj user).get "about").getD (.obj [])).truthy = false) := by
  constructor
  · intro n r env smtp hs
    rw [motivation_profile]
    simp [hs]
  · intro user env smtp
    unfold motivation read_data send_email
    simp only [Option.getD_some, getPairs_user]
    cases ht : (((Json.obj user).get "about").getD (.obj [])).truthy with
    | false => simp [ht]
    | true =>
      cases ho : smtp.outcome 0 <;> simp [ht, ho]

/-- Witness for C7 at a concrete all-empty about record and a concrete
stored user without an about key. -/
theorem about_validation_witness :
    sampleSmtpOk.outcome 0 = none ∧
    (motivation sampleEnvExn sampleSmtpOk
        (some [("user", encodeUserData ⟨"A", "Student", ⟨"", "", "", ""⟩⟩)])).1
      = .ok ⟨pyStripDoubleStar (generate_motivation sampleEnvExn
          (encodeAbout ⟨"", "", "", ""⟩)), "shuaibkaloor123@gmail.com"⟩ ∧
    ((motivation sampleEnvExn sampleSmtpOk
        (some [("user", Json.obj [("name", .str "A")])])).1
      = .httpError 400 "No about section found"
      ↔ (((Json.obj [("name", Json.str "A")]).get "about").getD (.obj [])).truthy
          = false) :=
  ⟨rfl,
   about_validation.1 "A" "Student" sampleEnvExn sampleSmtpOk rfl,
   about_validation.2 [("name", .str "A")] sampleEnvExn sampleSmtpOk⟩

/-- C8: on success `motivation` returns a body whose `motivation` field is
the generated text with every literal `**` marker removed — the stripped
text never contains `**` — and whose `email_sent_to` is the fixed
recipient. -/
theorem motivation_success_body :
    ∀ (env : GenEnv) (smtp : SmtpEnv) (p : UserData), smtp.outcome 0 = none →
      (motivation env smtp (some [("user", encodeUserData p)])).1
        = .ok ⟨pyStripDoubleStar (generate_motivation env (encodeAbout p.about)),
            "shuaibkaloor123@gmail.com"⟩ ∧
      (∀ s : String, hasDoubleStar (pyStripDoubleStar s).data = false) := by
  intro env smtp p hs
  refine ⟨?_, fun s => hasDoubleStar_stripDoubleStar s.data⟩
  rw [motivation_profile]
  simp [hs]

/-- Witness for C8: a concrete API returning text with `**` markers; the
response body carries the stripped text. -/
theorem motivation_success_body_witness :
    sampleSmtpOk.outcome 0 = none ∧
    ((motivation sampleEnvOk sampleSmtpOk (some [("user", encodeUserData sampleUser)])).1
      = .ok ⟨pyStripDoubleStar (generate_motivation sampleEnvOk
          (encodeAbout sampleUser.about)), "shuaibkaloor123@gmail.com"⟩ ∧
     (∀ s : String, hasDoubleStar (pyStripDoubleStar s).data = false)) ∧
    pyStripDoubleStar (generate_motivation sampleEnvOk
      (encodeAbout sampleUser.about)) = "Go get it" :=
  ⟨rfl, motivation_success_body sampleEnvOk sampleSmtpOk sampleUser rfl, rfl⟩

/-- C9: an SMTP failure at any stage is caught nowhere — `motivation`
surfaces it as an unhandled error — and only the first SMTP attempt is ever
consulted: the handler's behaviour is a function of attempt 0 alone (no
retry). -/
theorem smtp_failure_propagates :
    ∀ (env : GenEnv) (smtp : SmtpEnv) (p : UserData) (f : SmtpFailure),
      smtp.outcome 0 = some f →
      (motivation env smtp (some [("user", encodeUserData p)])).1
        = .unhandled f ∧
      (∀ smtp' : SmtpEnv, smtp'.email = smtp.email →
        smtp'.outcome 0 = smtp.outcome 0 →
        motivation env smtp' (some [("user", encodeUserData p)])
          = motivation env smtp (some [("user", encodeUserData p)])) := by
  intro env smtp p f hf
  constructor
  · rw [motivation_profile]
    simp [hf]
  · intro smtp' _he ho
    rw [motivation_profile, motivation_profile, ho]

/-- Witness for C9: a concrete login failure propagates unhandled, and an
SMTP environment differing only after attempt 0 behaves identically. -/
theorem smtp_failure_propagates_witness :
    sampleSmtpFail.outcome 0 = some (.login "auth failed") ∧
    ((motivation sampleEnvExn sampleSmtpFail
        (some [("user", encodeUserData sampleUser)])).1
      = .unhandled (.login "auth failed") ∧
     motivation sampleEnvExn ⟨"sender@example.com",
        fun n => if n = 0 then some (.login "auth failed") else none⟩
        (some [("user", encodeUserData sampleUser)])
      = motivation sampleEnvExn sampleSmtpFail
        (some [("user", encodeUserData sampleUser)])) :=
  ⟨rfl,
   (smtp_failure_propagates sampleEnvExn sampleSmtpFail sampleUser
      (.login "auth failed") rfl).1,
   (smtp_failure_propagates sampleEnvExn sampleSmtpFail sampleUser
      (.login "auth failed") rfl).2
     ⟨"sender@example.com", fun n => if n = 0 then some (.login "auth failed") else none⟩
     rfl rfl⟩

/-- C10: the generated message does not depend on the stored `name` and
`role`: two stored profiles with identical `about` sub-records produce the
identical prompt (the addressee is hardcoded) and, under the same tone,
date, API and SMTP behaviour, the identical `motivation` response. -/
theorem message_independent_of_name_role :
    ∀ (p1 p2 : UserData) (env : GenEnv) (smtp : SmtpEnv),
      p1.about = p2.about →
      buildPrompt (tones.get env.toneIdx) env.today (encodeAbout p1.about)
        = buildPrompt (tones.get env.toneIdx) env.today (encodeAbout p2.about) ∧
      (motivation env smtp (some [("user", encodeUserData p1)])).1
        = (motivation env smtp (some [("user", encodeUserData p2)])).1 := by
  intro p1 p2 env smtp h
  refine ⟨by rw [h], ?_⟩
  rw [motivation_profile, motivation_profile, h]

/-- Witness for C10: two concrete profiles differing in name and role but
sharing the about record get the same prompt and response. -/
theorem message_independent_of_name_role_witness :
    (UserData.mk "A" "Student" sampleAbout).about
      = (UserData.mk "B" "Engineer" sampleAbout).about ∧
    (buildPrompt (tones.get sampleEnvOk.toneIdx) sampleEnvOk.today
        (encodeAbout (UserData.mk "A" "Student" sampleAbout).about)
      = buildPrompt (tones.get sampleEnvOk.toneIdx) sampleEnvOk.today
        (encodeAbout (UserData.mk "B" "Engineer" sampleAbout).about) ∧
     (motivation sampleEnvOk sampleSmtpOk
        (some [("user", encodeUserData (UserData.mk "A" "Student" sampleAbout))])).1
      = (motivation sampleEnvOk sampleSmtpOk
        (some [("user", encodeUserData (UserData.mk "B" "Engineer" sampleAbout))])).1) :=
  ⟨rfl, message_independent_of_name_role (UserData.mk "A" "Student" sampleAbout)
    (UserData.mk "B" "Engineer" sampleAbout) sampleEnvOk sampleSmtpOk rfl⟩

/-- Witness for C6 at a concrete profile and a non-empty role update. -/
theorem update_user_role_overwrite_witness :
    (update_user ⟨some "X", none⟩ (some [("user", encodeUserData sampleUser)])).2
      = some [("user", encodeUserData
          ⟨sampleUser.name,
           if strTruthy (some "X") then (some "X" : Option String).getD ""
           else sampleUser.role,
           (none : Option About).getD sampleUser.about⟩)] ∧
    (strTruthy (some "X") = true ↔ ∃ s, (some "X" : Option String) = some s ∧ s ≠ "") :=
  update_user_role_overwrite sampleUser ⟨some "X", none⟩
